import Mathlib

/-!
Formal model of the Blend2D JIT composition-operator part
(`src/blend2d/pipeline/jit/compoppart.cpp`).

The functions below embed, at the value level, the runtime semantics of the
code that `CompOpPart` emits (the loop drivers and the fixed-point pixel
algebra) and, at the generator level, the pure control logic of `CompOpPart`
itself (the pixel-throughput planner, the constant-mask session state machine,
the partial-pixel mode).  Machine registers are modelled as natural numbers
reduced modulo 2^32 where the generated code relies on wrap-around; the
x86 carry/borrow flags of `sub`/`add` are modelled explicitly.
-/

/-! ### 32-bit register arithmetic -/

/-- Width of a 32-bit general-purpose register (the loop counter `i`). -/
def M32 : Nat := 4294967296

/-- `sub i, w` on a 32-bit register: the wrapped result.  The borrow (carry)
flag of the subtraction is `i < w`. -/
def wsub (i w : Nat) : Nat := (i + (M32 - w % M32)) % M32

/-- The borrow flag produced by `sub i, w` (x86 CF). -/
def subBorrow (i w : Nat) : Bool := decide (i < w)

/-! ### Loop tiers driven by the exact-subtraction-with-carry pattern

Each `chunkN v` models the emitted loop

    L_LoopN: <proc N pixels>; sub i, N; jnc L_LoopN

entered with register value `v` (that is, after a previous `sub` that did not
borrow).  The body always runs at least once.  The result is the pair
(total lanes consumed by this tier, register value before the final borrowing
`sub`); after the loop the register holds `wsub result.2 N`, and the add-back
emitted at the next label restores `result.2`. -/

def chunk4 (v : Nat) : Nat × Nat :=
  if h : v < 4 then (4, v)
  else
    let r := chunk4 (v - 4)
    (4 + r.1, r.2)
termination_by v
decreasing_by omega

def chunk8 (v : Nat) : Nat × Nat :=
  if h : v < 8 then (8, v)
  else
    let r := chunk8 (v - 8)
    (8 + r.1, r.2)
termination_by v
decreasing_by omega

def chunk16 (v : Nat) : Nat × Nat :=
  if h : v < 16 then (16, v)
  else
    let r := chunk16 (v - 16)
    (16 + r.1, r.2)
termination_by v
decreasing_by omega

def chunk32 (v : Nat) : Nat × Nat :=
  if h : v < 32 then (32, v)
  else
    let r := chunk32 (v - 32)
    (32 + r.1, r.2)
termination_by v
decreasing_by omega

/-- The 1-pixel do-while tail shared by several drivers:

    L_Loop1: <proc 1 pixel>; sub i, 1; jnz L_Loop1

entered with register value `i`.  Fuelled because for `i = 0` the register
wraps and the loop only stops after 2^32 iterations.  Returns the total lanes
consumed, or `none` when the fuel runs out. -/
def loop1Sub1Jnz (fuel i : Nat) : Option Nat :=
  match fuel with
  | 0 => none
  | fuel + 1 =>
    let j := wsub i 1
    if j = 0 then some 1
    else (loop1Sub1Jnz fuel j).map (· + 1)

/-- `cMaskGenericLoopVec`, shape `maxPixels() == 1`:
`L_Loop: cMaskProcStoreAdvance(1); sub i,1; jnz L_Loop`. -/
def cMaskGenericLoopVec1 (fuel i : Nat) : Option Nat :=
  loop1Sub1Jnz fuel i

/-- The `L_Skip4 .. L_Exit` tail of the unaligned 4- and 8-pixel shapes:
`prefetch1; add i,4; jz L_Exit; L_Loop1: proc 1; sub i,1; jnz L_Loop1`.
`t` is the register value after the add-back. -/
def skip4Tail (fuel t : Nat) : Option Nat :=
  if t = 0 then some 0 else loop1Sub1Jnz fuel t

/-- `cMaskGenericLoopVec`, shape `maxPixels() == 4 && minAlignment() == 1`:

    sub i,4; jc L_Skip4;
    L_Loop4: proc 4; sub i,4; jnc L_Loop4;
    L_Skip4: add i,4; jz L_Exit;
    L_Loop1: proc 1; sub i,1; jnz L_Loop1; L_Exit:
-/
def cMaskGenericLoopVec4u (fuel i : Nat) : Option Nat :=
  if i < 4 then
    skip4Tail fuel i
  else
    let r := chunk4 (i - 4)
    (skip4Tail fuel r.2).map (r.1 + ·)

/-- `cMaskGenericLoopVec`, shape `maxPixels() == 8 && minAlignment() == 1`:

    sub i,4; jc L_Skip4; sub i,4; jc L_Skip8;
    L_Loop8: proc 8; sub i,8; jnc L_Loop8;
    L_Skip8: add i,4; jnc L_Init1;
    L_Loop4: proc 4; sub i,4; jnc L_Loop4;
    L_Init1: ; L_Skip4: add i,4; jz L_Exit;
    L_Loop1: proc 1; sub i,1; jnz L_Loop1; L_Exit:

After the borrowing 8-loop `sub`, the register holds `r.2 - 8` wrapped, so the
`add i,4` at `L_Skip8` sets the carry flag exactly when `r.2 >= 4`. -/
def cMaskGenericLoopVec8u (fuel i : Nat) : Option Nat :=
  if i < 4 then
    skip4Tail fuel i
  else if i - 4 < 4 then
    -- second sub borrows; at L_Skip8 the add-back of 4 always carries
    -- (register was (i-4) - 4 wrapped with i-4 >= 0), so control falls
    -- into L_Loop4 with register i - 4.
    let r := chunk4 (i - 4)
    (skip4Tail fuel r.2).map (r.1 + ·)
  else
    let r := chunk8 (i - 8)
    if 4 ≤ r.2 then
      let r4 := chunk4 (r.2 - 4)
      (skip4Tail fuel r4.2).map (r.1 + r4.1 + ·)
    else
      (skip4Tail fuel r.2).map (r.1 + ·)

mutual

/-- `cMaskGenericLoopVec`, shape `maxPixels() == 4 && minAlignment() != 1`
(RGBA32: 4 bytes per pixel, `alignmentMask = 15`), label `L_Loop1`:

    L_Loop1: proc 1; sub i,1; jz L_Exit;
    test dPtr,15; jnz L_Loop1; cmp i,4; jb L_Loop1; fall into L_Aligned
-/
def g4aLoop1 (fuel i dPtr : Nat) : Option Nat :=
  match fuel with
  | 0 => none
  | fuel + 1 =>
    let d := dPtr + 4
    let j := wsub i 1
    if j = 0 then some 1
    else if d % 16 ≠ 0 then (g4aLoop1 fuel j d).map (· + 1)
    else if j < 4 then (g4aLoop1 fuel j d).map (· + 1)
    else (g4aAligned fuel j d).map (· + 1)

/-- Shape `maxPixels() == 4 && minAlignment() != 1`, label `L_Aligned`:

    L_Aligned: sub i,4;
    L_Loop4: proc 4 (aligned); sub i,4; jnc L_Loop4;
    add i,4; jnz L_Loop1; L_Exit:
-/
def g4aAligned (fuel i dPtr : Nat) : Option Nat :=
  match fuel with
  | 0 => none
  | fuel + 1 =>
    let r := chunk4 (i - 4)
    if r.2 = 0 then some r.1
    else (g4aLoop1 fuel r.2 (dPtr + 4 * r.1)).map (r.1 + ·)

end

/-- Shape `maxPixels() == 4 && minAlignment() != 1`, entry:

    test dPtr,15; jnz L_Unaligned; cmp i,4; jae L_Aligned; L_Unaligned: → L_Loop1
-/
def cMaskGenericLoopVec4a (fuel i dPtr : Nat) : Option Nat :=
  if dPtr % 16 ≠ 0 then g4aLoop1 fuel i dPtr
  else if 4 ≤ i then g4aAligned fuel i dPtr
  else g4aLoop1 fuel i dPtr

mutual

/-- `cMaskGenericLoopVec`, shape `maxPixels() == 8 && minAlignment() != 1`,
label `L_Loop1`:

    L_Loop1: proc 1; sub i,1; jz L_Exit;
    test dPtr,15; jnz L_Loop1; fall into L_Aligned
-/
def g8aLoop1 (fuel i dPtr : Nat) : Option Nat :=
  match fuel with
  | 0 => none
  | fuel + 1 =>
    let d := dPtr + 4
    let j := wsub i 1
    if j = 0 then some 1
    else if d % 16 ≠ 0 then (g8aLoop1 fuel j d).map (· + 1)
    else (g8aAligned fuel j d).map (· + 1)

/-- Shape `maxPixels() == 8 && minAlignment() != 1`, label `L_Aligned`:

    L_Aligned: cmp i,4; jb L_Loop1;
    sub i,8; jc L_Skip8;
    L_Loop8: proc 8 (aligned); sub i,8; jnc L_Loop8;
    L_Skip8: add i,4; jnc L_Skip4; proc 4 (aligned); sub i,4;
    L_Skip4: add i,4; jnz L_Loop1; L_Exit:

After a borrowing `sub` left the register at `r - 8` wrapped (`0 <= r < 8`),
the `add i,4` at `L_Skip8` carries exactly when `r >= 4`. -/
def g8aAligned (fuel i dPtr : Nat) : Option Nat :=
  match fuel with
  | 0 => none
  | fuel + 1 =>
    if i < 4 then g8aLoop1 fuel i dPtr
    else if i < 8 then
      -- sub i,8 borrows; add i,4 carries (i >= 4): proc 4, sub i,4,
      -- then the add-back at L_Skip4 leaves i - 4.
      if i - 4 = 0 then some 4
      else (g8aLoop1 fuel (i - 4) (dPtr + 16)).map (4 + ·)
    else
      let r := chunk8 (i - 8)
      if 4 ≤ r.2 then
        if r.2 - 4 = 0 then some (r.1 + 4)
        else (g8aLoop1 fuel (r.2 - 4) (dPtr + 4 * r.1 + 16)).map (r.1 + 4 + ·)
      else
        if r.2 = 0 then some r.1
        else (g8aLoop1 fuel r.2 (dPtr + 4 * r.1)).map (r.1 + ·)

end

/-- Shape `maxPixels() == 8 && minAlignment() != 1`, entry:
`test dPtr,15; jz L_Aligned; prefetch1; → L_Loop1`. -/
def cMaskGenericLoopVec8a (fuel i dPtr : Nat) : Option Nat :=
  if dPtr % 16 ≠ 0 then g8aLoop1 fuel i dPtr
  else g8aAligned fuel i dPtr

/-- `cMaskGenericLoopVec`, shape `maxPixels() == 16`, tail after `L_Skip16`
(`add i,16` already applied, register `r`):

    jz L_Exit;
    use512BitSimd: predicate-masked proc consuming the remaining r
                   (BL_ASSERT(0) when masked access is unavailable);
    otherwise: cmp i,8; jc L_Skip8; proc 8; sub i,8; jz L_Exit;
               L_Skip8: predicate-masked proc consuming the remaining i.
-/
def gen16Tail (use512 maskedAccess : Bool) (r : Nat) : Option Nat :=
  if r = 0 then some 0
  else if use512 then
    if maskedAccess then some r else none
  else
    if r < 8 then
      if maskedAccess then some r else none
    else
      if r - 8 = 0 then some 8
      else if maskedAccess then some r else none

/-- `cMaskGenericLoopVec`, shape `maxPixels() == 16`:

    sub i,16; jc L_Skip16;
    L_Loop16: proc 16; sub i,16; jnc L_Loop16;
    L_Skip16: add i,16; <tail above>
-/
def cMaskGenericLoopVec16 (use512 maskedAccess : Bool) (i : Nat) : Option Nat :=
  if i < 16 then gen16Tail use512 maskedAccess i
  else
    let r := chunk16 (i - 16)
    (gen16Tail use512 maskedAccess r.2).map (r.1 + ·)

/-- `cMaskGenericLoopVec`, shape `maxPixels() == 32`, tail after `L_Skip32`
(`add i,32` already applied, register `r`):

    jz L_Exit; sub i,8; jc L_Skip8;
    L_Loop8: proc 8; sub i,8; jnc L_Loop8;
    L_Skip8: add i,8; jz L_Exit;
    predicate-masked proc consuming the remaining i
    (BL_ASSERT(0) when masked access is unavailable).
-/
def gen32Tail (maskedAccess : Bool) (r : Nat) : Option Nat :=
  if r = 0 then some 0
  else if r < 8 then
    if maskedAccess then some r else none
  else
    let c := chunk8 (r - 8)
    if c.2 = 0 then some c.1
    else if maskedAccess then some (c.1 + c.2) else none

/-- `cMaskGenericLoopVec`, shape `maxPixels() == 32`:

    sub i,32; jc L_Skip32;
    L_Loop32: proc 32; sub i,32; jnc L_Loop32;
    L_Skip32: add i,32; <tail above>
-/
def cMaskGenericLoopVec32 (maskedAccess : Bool) (i : Nat) : Option Nat :=
  if i < 32 then gen32Tail maskedAccess i
  else
    let r := chunk32 (i - 32)
    (gen32Tail maskedAccess r.2).map (r.1 + ·)

/-- `cMaskGranularLoopVec`, shape `maxPixels() == 1`, inner `L_Step` loop:

    L_Step: proc 1; sub i,1; nextPartialPixel(); test i,3; jnz L_Step

Returns (lanes consumed by this group, register value at exit). -/
def granStep (fuel i : Nat) : Option (Nat × Nat) :=
  match fuel with
  | 0 => none
  | fuel + 1 =>
    let j := wsub i 1
    if j % 4 ≠ 0 then (granStep fuel j).map (fun p => (p.1 + 1, p.2))
    else some (1, j)

/-- `cMaskGranularLoopVec`, shape `maxPixels() == 1`:

    L_Loop: enterPartialMode(); <L_Step loop>; exitPartialMode();
    test i,i; jnz L_Loop
-/
def cMaskGranularLoopVec1 (fuel i : Nat) : Option Nat :=
  match fuel with
  | 0 => none
  | fuel + 1 =>
    match granStep fuel i with
    | none => none
    | some p =>
      if p.2 ≠ 0 then (cMaskGranularLoopVec1 fuel p.2).map (p.1 + ·)
      else some p.1

/-- The 4-pixel do-while loop `L: proc 4; sub i,4; jnz L` (granular shapes
`maxPixels() == 4` and the 4-pixel remainder loop of `maxPixels() == 16`). -/
def loop4Sub4Jnz (fuel i : Nat) : Option Nat :=
  match fuel with
  | 0 => none
  | fuel + 1 =>
    let j := wsub i 4
    if j = 0 then some 4
    else (loop4Sub4Jnz fuel j).map (· + 4)

/-- `cMaskGranularLoopVec`, shape `maxPixels() == 4`. -/
def cMaskGranularLoopVec4 (fuel i : Nat) : Option Nat :=
  loop4Sub4Jnz fuel i

/-- `cMaskGranularLoopVec`, shape `maxPixels() == 8`:

    sub i,8; jc L_Skip;
    L_Loop_Iter8: proc 8; sub i,8; jnc L_Loop_Iter8;
    L_Skip: add i,8; jz L_End; proc 4; L_End:
-/
def cMaskGranularLoopVec8 (i : Nat) : Nat :=
  if i < 8 then
    if i = 0 then 0 else 4
  else
    let r := chunk8 (i - 8)
    if r.2 = 0 then r.1 else r.1 + 4

/-- `cMaskGranularLoopVec`, shape `maxPixels() == 16`:

    sub i,16; jc L_Skip;
    L_Loop_Iter16: proc 16; sub i,16; jnc L_Loop_Iter16;
    L_Skip: add i,16; jz L_End;
    L_Loop_Iter4: proc 4; sub i,4; jnz L_Loop_Iter4; L_End:
-/
def cMaskGranularLoopVec16 (fuel i : Nat) : Option Nat :=
  if i < 16 then
    if i = 0 then some 0 else loop4Sub4Jnz fuel i
  else
    let r := chunk16 (i - 16)
    if r.2 = 0 then some r.1
    else (loop4Sub4Jnz fuel r.2).map (r.1 + ·)

/-! ### Lane-conservation lemmas -/

theorem chunk4_spec (v : Nat) : chunk4 v = (v / 4 * 4 + 4, v % 4) := by
  induction v using Nat.strong_induction_on with
  | _ v ih =>
    rw [chunk4]
    split
    next h => simp [Nat.div_eq_of_lt h, Nat.mod_eq_of_lt h]
    next h =>
      have ih4 := ih (v - 4) (by omega)
      simp only [ih4, Prod.mk.injEq]
      omega

theorem chunk8_spec (v : Nat) : chunk8 v = (v / 8 * 8 + 8, v % 8) := by
  induction v using Nat.strong_induction_on with
  | _ v ih =>
    rw [chunk8]
    split
    next h => simp [Nat.div_eq_of_lt h, Nat.mod_eq_of_lt h]
    next h =>
      have ih8 := ih (v - 8) (by omega)
      simp only [ih8, Prod.mk.injEq]
      omega

theorem chunk16_spec (v : Nat) : chunk16 v = (v / 16 * 16 + 16, v % 16) := by
  induction v using Nat.strong_induction_on with
  | _ v ih =>
    rw [chunk16]
    split
    next h => simp [Nat.div_eq_of_lt h, Nat.mod_eq_of_lt h]
    next h =>
      have ih16 := ih (v - 16) (by omega)
      simp only [ih16, Prod.mk.injEq]
      omega

theorem chunk32_spec (v : Nat) : chunk32 v = (v / 32 * 32 + 32, v % 32) := by
  induction v using Nat.strong_induction_on with
  | _ v ih =>
    rw [chunk32]
    split
    next h => simp [Nat.div_eq_of_lt h, Nat.mod_eq_of_lt h]
    next h =>
      have ih32 := ih (v - 32) (by omega)
      simp only [ih32, Prod.mk.injEq]
      omega

theorem wsub_one (i : Nat) (h1 : 1 ≤ i) (h2 : i < M32) : wsub i 1 = i - 1 := by
  unfold wsub M32 at *
  omega

theorem wsub_one_zero : wsub 0 1 = M32 - 1 := by
  unfold wsub M32
  omega

theorem wsub_four (i : Nat) (h1 : 4 ≤ i) (h2 : i < M32) : wsub i 4 = i - 4 := by
  unfold wsub M32 at *
  omega

theorem loop1Sub1Jnz_eq :
    ∀ fuel i, 1 ≤ i → i < M32 → i ≤ fuel → loop1Sub1Jnz fuel i = some i := by
  intro fuel
  induction fuel with
  | zero => intro i h1 _ hf; omega
  | succ f ih =>
    intro i h1 h2 hf
    rw [loop1Sub1Jnz]
    rw [wsub_one i h1 h2]
    by_cases h : i - 1 = 0
    · have : i = 1 := by omega
      simp [h, this]
    · rw [if_neg h, ih (i - 1) (by omega) (by omega) (by omega)]
      have hadd : i - 1 + 1 = i := by omega
      simp [hadd]

theorem skip4Tail_eq :
    ∀ fuel t, t < M32 → t ≤ fuel → skip4Tail fuel t = some t := by
  intro fuel t h2 hf
  unfold skip4Tail
  by_cases h : t = 0
  · simp [h]
  · rw [if_neg h, loop1Sub1Jnz_eq fuel t (by omega) h2 hf]

theorem gen4u_eq (fuel i : Nat) (h1 : 1 ≤ i) (h2 : i < M32) (hf : i ≤ fuel) :
    cMaskGenericLoopVec4u fuel i = some i := by
  rw [cMaskGenericLoopVec4u]
  by_cases h : i < 4
  · rw [if_pos h]
    exact skip4Tail_eq fuel i h2 hf
  · rw [if_neg h]
    simp only [chunk4_spec]
    rw [skip4Tail_eq fuel ((i - 4) % 4) (by unfold M32 at *; omega) (by omega)]
    simp only [Option.map_some']
    congr 1
    omega

theorem gen8u_eq (fuel i : Nat) (h1 : 1 ≤ i) (h2 : i < M32) (hf : i ≤ fuel) :
    cMaskGenericLoopVec8u fuel i = some i := by
  rw [cMaskGenericLoopVec8u]
  by_cases h : i < 4
  · rw [if_pos h]
    exact skip4Tail_eq fuel i h2 hf
  · rw [if_neg h]
    by_cases h4 : i - 4 < 4
    · rw [if_pos h4]
      simp only [chunk4_spec]
      rw [skip4Tail_eq fuel ((i - 4) % 4) (by unfold M32 at *; omega) (by omega)]
      simp only [Option.map_some']
      congr 1
      omega
    · rw [if_neg h4]
      simp only [chunk8_spec]
      by_cases h8 : 4 ≤ (i - 8) % 8
      · rw [if_pos h8]
        simp only [chunk4_spec]
        rw [skip4Tail_eq fuel (((i - 8) % 8 - 4) % 4) (by unfold M32 at *; omega) (by omega)]
        simp only [Option.map_some']
        congr 1
        omega
      · rw [if_neg h8]
        rw [skip4Tail_eq fuel ((i - 8) % 8) (by unfold M32 at *; omega) (by omega)]
        simp only [Option.map_some']
        congr 1
        omega

theorem g4a_eq :
    ∀ fuel,
      (∀ i d, 1 ≤ i → i < M32 → i ≤ fuel → g4aLoop1 fuel i d = some i) ∧
      (∀ i d, 4 ≤ i → i < M32 → i ≤ fuel → g4aAligned fuel i d = some i) := by
  intro fuel
  induction fuel with
  | zero =>
    constructor
    · intro i d h1 _ hf; omega
    · intro i d h1 _ hf; omega
  | succ f ih =>
    constructor
    · intro i d h1 h2 hf
      rw [g4aLoop1]
      simp only [wsub_one i h1 h2]
      by_cases h : i - 1 = 0
      · have hi : i = 1 := by omega
        simp [h, hi]
      · rw [if_neg h]
        by_cases ha : (d + 4) % 16 ≠ 0
        · rw [if_pos ha, ih.1 (i - 1) (d + 4) (by omega) (by omega) (by omega)]
          simp only [Option.map_some']
          congr 1
          omega
        · rw [if_neg ha]
          by_cases hb : i - 1 < 4
          · rw [if_pos hb, ih.1 (i - 1) (d + 4) (by omega) (by omega) (by omega)]
            simp only [Option.map_some']
            congr 1
            omega
          · rw [if_neg hb, ih.2 (i - 1) (d + 4) (by omega) (by omega) (by omega)]
            simp only [Option.map_some']
            congr 1
            omega
    · intro i d h1 h2 hf
      rw [g4aAligned]
      simp only [chunk4_spec]
      by_cases h : (i - 4) % 4 = 0
      · rw [if_pos h]
        congr 1
        omega
      · rw [if_neg h]
        rw [ih.1 ((i - 4) % 4) (d + 4 * ((i - 4) / 4 * 4 + 4)) (by omega)
              (by unfold M32 at *; omega) (by omega)]
        simp only [Option.map_some']
        congr 1
        omega

theorem gen4a_eq (fuel i d : Nat) (h1 : 1 ≤ i) (h2 : i < M32) (hf : i ≤ fuel) :
    cMaskGenericLoopVec4a fuel i d = some i := by
  rw [cMaskGenericLoopVec4a]
  by_cases ha : d % 16 ≠ 0
  · rw [if_pos ha]
    exact (g4a_eq fuel).1 i d h1 h2 hf
  · rw [if_neg ha]
    by_cases hb : 4 ≤ i
    · rw [if_pos hb]
      exact (g4a_eq fuel).2 i d hb h2 hf
    · rw [if_neg hb]
      exact (g4a_eq fuel).1 i d h1 h2 hf


theorem g8a_eq :
    ∀ fuel,
      (∀ i d, 1 ≤ i → i < M32 → 2 * i ≤ fuel → g8aLoop1 fuel i d = some i) ∧
      (∀ i d, 1 ≤ i → i < M32 → 2 * i + 1 ≤ fuel → g8aAligned fuel i d = some i) := by
  intro fuel
  induction fuel with
  | zero =>
    constructor
    · intro i d h1 _ hf; omega
    · intro i d h1 _ hf; omega
  | succ f ih =>
    constructor
    · intro i d h1 h2 hf
      rw [g8aLoop1]
      simp only [wsub_one i h1 h2]
      by_cases h : i - 1 = 0
      · have hi : i = 1 := by omega
        simp [h, hi]
      · rw [if_neg h]
        by_cases ha : (d + 4) % 16 ≠ 0
        · rw [if_pos ha, ih.1 (i - 1) (d + 4) (by omega) (by omega) (by omega)]
          simp only [Option.map_some']
          congr 1
          omega
        · rw [if_neg ha, ih.2 (i - 1) (d + 4) (by omega) (by omega) (by omega)]
          simp only [Option.map_some']
          congr 1
          omega
    · intro i d h1 h2 hf
      rw [g8aAligned]
      by_cases h4 : i < 4
      · rw [if_pos h4]
        exact ih.1 i d h1 h2 (by omega)
      · rw [if_neg h4]
        by_cases h8 : i < 8
        · rw [if_pos h8]
          by_cases h40 : i - 4 = 0
          · rw [if_pos h40]
            congr 1
            omega
          · rw [if_neg h40, ih.1 (i - 4) (d + 16) (by omega) (by omega) (by omega)]
            simp only [Option.map_some']
            congr 1
            omega
        · rw [if_neg h8]
          simp only [chunk8_spec]
          by_cases hc : 4 ≤ (i - 8) % 8
          · rw [if_pos hc]
            by_cases hz : (i - 8) % 8 - 4 = 0
            · rw [if_pos hz]
              congr 1
              omega
            · rw [if_neg hz,
                  ih.1 ((i - 8) % 8 - 4) (d + 4 * ((i - 8) / 8 * 8 + 8) + 16)
                    (by omega) (by unfold M32 at *; omega) (by omega)]
              simp only [Option.map_some']
              congr 1
              omega
          · rw [if_neg hc]
            by_cases hz : (i - 8) % 8 = 0
            · rw [if_pos hz]
              congr 1
              omega
            · rw [if_neg hz,
                  ih.1 ((i - 8) % 8) (d + 4 * ((i - 8) / 8 * 8 + 8))
                    (by omega) (by unfold M32 at *; omega) (by omega)]
              simp only [Option.map_some']
              congr 1
              omega

theorem gen8a_eq (fuel i d : Nat) (h1 : 1 ≤ i) (h2 : i < M32) (hf : 2 * i + 1 ≤ fuel) :
    cMaskGenericLoopVec8a fuel i d = some i := by
  rw [cMaskGenericLoopVec8a]
  by_cases ha : d % 16 ≠ 0
  · rw [if_pos ha]
    exact (g8a_eq fuel).1 i d h1 h2 (by omega)
  · rw [if_neg ha]
    exact (g8a_eq fuel).2 i d h1 h2 hf

theorem gen16Tail_eq (use512 : Bool) (r : Nat) (hr : r < 16) :
    gen16Tail use512 true r = some r := by
  unfold gen16Tail
  by_cases h0 : r = 0
  · simp [h0]
  · rw [if_neg h0]
    by_cases hu : use512
    · simp [hu]
    · simp only [hu, if_false, Bool.false_eq_true]
      by_cases h8 : r < 8
      · simp [h8]
      · rw [if_neg h8]
        by_cases hz : r - 8 = 0
        · rw [if_pos hz]
          congr 1
          omega
        · simp [hz]

theorem gen16_eq (use512 : Bool) (i : Nat) (h2 : i < M32) :
    cMaskGenericLoopVec16 use512 true i = some i := by
  rw [cMaskGenericLoopVec16]
  by_cases h : i < 16
  · rw [if_pos h]
    exact gen16Tail_eq use512 i h
  · rw [if_neg h]
    simp only [chunk16_spec]
    rw [gen16Tail_eq use512 ((i - 16) % 16) (by omega)]
    simp only [Option.map_some']
    congr 1
    omega

theorem gen32Tail_eq (r : Nat) (hr : r < 32) :
    gen32Tail true r = some r := by
  unfold gen32Tail
  by_cases h0 : r = 0
  · simp [h0]
  · rw [if_neg h0]
    by_cases h8 : r < 8
    · simp [h8]
    · rw [if_neg h8]
      simp only [chunk8_spec]
      by_cases hz : (r - 8) % 8 = 0
      · rw [if_pos hz]
        congr 1
        omega
      · rw [if_neg hz]
        simp only [if_true]
        congr 1
        omega

theorem gen32_eq (i : Nat) (h2 : i < M32) :
    cMaskGenericLoopVec32 true i = some i := by
  rw [cMaskGenericLoopVec32]
  by_cases h : i < 32
  · rw [if_pos h]
    exact gen32Tail_eq i h
  · rw [if_neg h]
    simp only [chunk32_spec]
    rw [gen32Tail_eq ((i - 32) % 32) (by omega)]
    simp only [Option.map_some']
    congr 1
    omega

theorem granStep_eq :
    ∀ fuel i, 1 ≤ i → i < M32 → i ≤ fuel →
      granStep fuel i = some ((i - 1) % 4 + 1, i - 1 - (i - 1) % 4) := by
  intro fuel
  induction fuel with
  | zero => intro i h1 _ hf; omega
  | succ f ih =>
    intro i h1 h2 hf
    rw [granStep]
    simp only [wsub_one i h1 h2]
    by_cases h : (i - 1) % 4 ≠ 0
    · rw [if_pos h, ih (i - 1) (by omega) (by omega) (by omega)]
      simp only [Option.map_some', Option.some.injEq, Prod.mk.injEq]
      constructor <;> omega
    · rw [if_neg h]
      simp only [Option.some.injEq, Prod.mk.injEq]
      constructor <;> omega

theorem gran1_eq :
    ∀ fuel i, i % 4 = 0 → 4 ≤ i → i < M32 → i < fuel →
      cMaskGranularLoopVec1 fuel i = some i := by
  intro fuel
  induction fuel with
  | zero => intro i _ h4 _ hf; omega
  | succ f ih =>
    intro i hm h4 h2 hf
    rw [cMaskGranularLoopVec1]
    rw [granStep_eq f i (by omega) h2 (by omega)]
    have hx : (i - 1) % 4 = 3 := by omega
    simp only [hx]
    by_cases hz : i - 1 - 3 = 0
    · have : i = 4 := by omega
      simp [hz, this]
    · have h14 : i - 1 - 3 = i - 4 := by omega
      simp only [h14]
      rw [if_pos (by omega : i - 4 ≠ 0)]
      rw [ih (i - 4) (by omega) (by omega) (by omega) (by omega)]
      simp only [Option.map_some']
      congr 1
      omega

theorem loop4Sub4Jnz_eq :
    ∀ fuel i, i % 4 = 0 → 4 ≤ i → i < M32 → i ≤ fuel →
      loop4Sub4Jnz fuel i = some i := by
  intro fuel
  induction fuel with
  | zero => intro i _ h4 _ hf; omega
  | succ f ih =>
    intro i hm h4 h2 hf
    rw [loop4Sub4Jnz]
    rw [wsub_four i h4 h2]
    by_cases h : i - 4 = 0
    · have : i = 4 := by omega
      simp [h, this]
    · rw [if_neg h, ih (i - 4) (by omega) (by omega) (by omega) (by omega)]
      simp only [Option.map_some']
      congr 1
      omega

theorem gran8_eq (i : Nat) (hm : i % 4 = 0) (h2 : i < M32) :
    cMaskGranularLoopVec8 i = i := by
  unfold cMaskGranularLoopVec8
  by_cases h : i < 8
  · rw [if_pos h]
    by_cases h0 : i = 0
    · simp [h0]
    · rw [if_neg h0]
      omega
  · rw [if_neg h]
    simp only [chunk8_spec]
    by_cases hz : (i - 8) % 8 = 0
    · rw [if_pos hz]
      omega
    · rw [if_neg hz]
      omega

theorem gran16_eq (fuel i : Nat) (hm : i % 4 = 0) (h1 : 1 ≤ i) (h2 : i < M32)
    (hf : i ≤ fuel) :
    cMaskGranularLoopVec16 fuel i = some i := by
  rw [cMaskGranularLoopVec16]
  by_cases h : i < 16
  · rw [if_pos h, if_neg (by omega : ¬i = 0)]
    exact loop4Sub4Jnz_eq fuel i hm (by omega) h2 hf
  · rw [if_neg h]
    simp only [chunk16_spec]
    by_cases hz : (i - 16) % 16 = 0
    · rw [if_pos hz]
      congr 1
      omega
    · rw [if_neg hz]
      rw [loop4Sub4Jnz_eq fuel ((i - 16) % 16) (by omega) (by omega)
            (by unfold M32 at *; omega) (by omega)]
      simp only [Option.map_some']
      congr 1
      omega

theorem loop1Sub1Jnz_at_zero : loop1Sub1Jnz M32 0 = some M32 := by
  have hM : M32 = 4294967295 + 1 := by norm_num [M32]
  rw [hM, loop1Sub1Jnz]
  have hw : wsub 0 1 = 4294967295 := by
    rw [wsub_one_zero]
    norm_num [M32]
  simp only [hw]
  rw [if_neg (by norm_num)]
  rw [loop1Sub1Jnz_eq 4294967295 4294967295 (by norm_num) (by norm_num [M32]) (le_refl _)]
  simp only [Option.map_some']

/-- C1 counterexample: the claim asserts that for every non-negative span
length `i` and every maxLanes tiering the total lanes consumed equals `i`
exactly, "including i == 0".  This is false for the 1-lane generic driver
(`cMaskGenericLoopVec` with `maxPixels() == 1`), whose emitted code is the
do-while loop `L_Loop: proc 1; sub i,1; jnz L_Loop`: at `i == 0` the body runs
once before the test, the register wraps to 2^32 - 1, and the loop consumes
2^32 lanes before terminating — not 0. -/
theorem C1_counterexample :
    cMaskGenericLoopVec1 M32 0 = some M32 ∧ some M32 ≠ some (0 : Nat) := by
  constructor
  · exact loop1Sub1Jnz_at_zero
  · intro h
    simp only [Option.some.injEq] at h
    exact absurd h (by norm_num [M32])

/-- C1 (amended): for every span length `i` with `1 <= i < 2^32` every loop
driver shape consumes exactly `i` lanes in total (granular shapes under the
call-site invariant that `i` is a multiple of the pixel granularity 4, and the
16/32-lane shapes when the target exposes masked access); at `i == 0` the
shapes whose smallest tier is entered through a borrow-checked subtraction
(generic 4/8-lane unaligned, 16, 32, granular 8, 16) also consume exactly 0,
while the do-while-shaped drivers do not (see the counterexample).  `fuel` is
an upper bound on loop iterations used to make the do-while loops total;
`2 * i + 1` iterations always suffice. -/
theorem C1_loop_drivers_conserve_lanes (fuel i dPtr : Nat) (use512 : Bool)
    (h1 : 1 ≤ i) (h2 : i < M32) (hf : 2 * i + 1 ≤ fuel) :
    cMaskGenericLoopVec1 fuel i = some i ∧
    cMaskGenericLoopVec4u fuel i = some i ∧
    cMaskGenericLoopVec4a fuel i dPtr = some i ∧
    cMaskGenericLoopVec8u fuel i = some i ∧
    cMaskGenericLoopVec8a fuel i dPtr = some i ∧
    cMaskGenericLoopVec16 use512 true i = some i ∧
    cMaskGenericLoopVec32 true i = some i ∧
    (i % 4 = 0 →
      cMaskGranularLoopVec1 fuel i = some i ∧
      cMaskGranularLoopVec4 fuel i = some i ∧
      cMaskGranularLoopVec8 i = i ∧
      cMaskGranularLoopVec16 fuel i = some i) ∧
    cMaskGenericLoopVec4u fuel 0 = some 0 ∧
    cMaskGenericLoopVec8u fuel 0 = some 0 ∧
    cMaskGenericLoopVec16 use512 true 0 = some 0 ∧
    cMaskGenericLoopVec32 true 0 = some 0 ∧
    cMaskGranularLoopVec8 0 = 0 ∧
    cMaskGranularLoopVec16 fuel 0 = some 0 := by
  refine ⟨?_, ?_, ?_, ?_, ?_, ?_, ?_, ?_, ?_, ?_, ?_, ?_, ?_, ?_⟩
  · exact loop1Sub1Jnz_eq fuel i h1 h2 (by omega)
  · exact gen4u_eq fuel i h1 h2 (by omega)
  · exact gen4a_eq fuel i dPtr h1 h2 (by omega)
  · exact gen8u_eq fuel i h1 h2 (by omega)
  · exact gen8a_eq fuel i dPtr h1 h2 hf
  · exact gen16_eq use512 i h2
  · exact gen32_eq i h2
  · intro hm
    refine ⟨?_, ?_, ?_, ?_⟩
    · exact gran1_eq fuel i hm (by omega) h2 (by omega)
    · exact loop4Sub4Jnz_eq fuel i hm (by omega) h2 (by omega)
    · exact gran8_eq i hm h2
    · exact gran16_eq fuel i hm h1 h2 (by omega)
  · simp [cMaskGenericLoopVec4u, skip4Tail]
  · simp [cMaskGenericLoopVec8u, skip4Tail]
  · simp [cMaskGenericLoopVec16, gen16Tail]
  · simp [cMaskGenericLoopVec32, gen32Tail]
  · simp [cMaskGranularLoopVec8]
  · simp [cMaskGranularLoopVec16]

/-- C1 witness: the amended conservation law evaluated at the concrete span
length 12 with destination pointer 5 and fuel 25. -/
theorem C1_loop_drivers_conserve_lanes_witness :
    (1 ≤ 12 ∧ 12 < M32 ∧ 2 * 12 + 1 ≤ 25) ∧
    (cMaskGenericLoopVec1 25 12 = some 12 ∧
     cMaskGenericLoopVec4u 25 12 = some 12 ∧
     cMaskGenericLoopVec4a 25 12 5 = some 12 ∧
     cMaskGenericLoopVec8u 25 12 = some 12 ∧
     cMaskGenericLoopVec8a 25 12 5 = some 12 ∧
     cMaskGenericLoopVec16 false true 12 = some 12 ∧
     cMaskGenericLoopVec32 true 12 = some 12 ∧
     ((12 : Nat) % 4 = 0 →
       cMaskGranularLoopVec1 25 12 = some 12 ∧
       cMaskGranularLoopVec4 25 12 = some 12 ∧
       cMaskGranularLoopVec8 12 = 12 ∧
       cMaskGranularLoopVec16 25 12 = some 12) ∧
     cMaskGenericLoopVec4u 25 0 = some 0 ∧
     cMaskGenericLoopVec8u 25 0 = some 0 ∧
     cMaskGenericLoopVec16 false true 0 = some 0 ∧
     cMaskGenericLoopVec32 true 0 = some 0 ∧
     cMaskGranularLoopVec8 0 = 0 ∧
     cMaskGranularLoopVec16 25 0 = some 0) :=
  ⟨⟨by decide, by decide, by decide⟩,
   C1_loop_drivers_conserve_lanes 25 12 5 false (by decide) (by decide) (by decide)⟩

/-! ### Pixel-throughput planner (`CompOpPart::preparePart`) -/

inductive PixelType where
  | kA8
  | kRGBA32
deriving DecidableEq

inductive BLCompOp where
  | SRC_OVER
  | SRC_COPY
  | SRC_IN
  | SRC_OUT
  | SRC_ATOP
  | DST_OVER
  | DST_IN
  | DST_OUT
  | DST_ATOP
  | XOR
  | CLEAR
  | PLUS
  | MINUS
  | MODULATE
  | MULTIPLY
  | SCREEN
  | OVERLAY
  | DARKEN
  | LIGHTEN
  | COLOR_DODGE
  | COLOR_BURN
  | LINEAR_BURN
  | LINEAR_LIGHT
  | PIN_LIGHT
  | HARD_LIGHT
  | SOFT_LIGHT
  | DIFFERENCE
  | EXCLUSION
  | INTERNAL_ALPHA_INV
deriving DecidableEq

/-- The per-operator `maxPixels` table of `preparePart` for `PixelType::kRGBA32`. -/
def rgba32MaxPixelsTable : BLCompOp → Nat
  | BLCompOp.SRC_OVER => 8
  | BLCompOp.SRC_COPY => 8
  | BLCompOp.SRC_IN => 8
  | BLCompOp.SRC_OUT => 8
  | BLCompOp.SRC_ATOP => 8
  | BLCompOp.DST_OVER => 8
  | BLCompOp.DST_IN => 8
  | BLCompOp.DST_OUT => 8
  | BLCompOp.DST_ATOP => 8
  | BLCompOp.XOR => 8
  | BLCompOp.CLEAR => 8
  | BLCompOp.PLUS => 8
  | BLCompOp.MINUS => 4
  | BLCompOp.MODULATE => 8
  | BLCompOp.MULTIPLY => 8
  | BLCompOp.SCREEN => 8
  | BLCompOp.OVERLAY => 4
  | BLCompOp.DARKEN => 8
  | BLCompOp.LIGHTEN => 8
  | BLCompOp.COLOR_DODGE => 1
  | BLCompOp.COLOR_BURN => 1
  | BLCompOp.LINEAR_BURN => 8
  | BLCompOp.LINEAR_LIGHT => 1
  | BLCompOp.PIN_LIGHT => 4
  | BLCompOp.HARD_LIGHT => 4
  | BLCompOp.SOFT_LIGHT => 1
  | BLCompOp.DIFFERENCE => 4
  | BLCompOp.EXCLUSION => 4
  | BLCompOp.INTERNAL_ALPHA_INV => 8

/-- The per-(format, operator) table value of `preparePart` (`maxPixels`
before scaling; the `kA8` case is the constant 8). -/
def preparePartTable (pt : PixelType) (op : BLCompOp) : Nat :=
  match pt with
  | PixelType.kA8 => 8
  | PixelType.kRGBA32 => rgba32MaxPixelsTable op

structure PreparePartInput where
  pixelType : PixelType
  compOp : BLCompOp
  isSolid : Bool
  dstComplexFetch : Bool
  srcComplexFetch : Bool
  is32Bit : Bool
  simdMultiplier : Nat
  srcMaxPixels : Nat
deriving DecidableEq

/-- `CompOpPart::preparePart`: `pixelLimit` starts at 64, is lowered to 4 in
32-bit mode for a non-solid non-A8 pipeline, and to 4 when either fetch is
complex; then, only when the table value exceeds 1, BOTH `maxPixels` and
`pixelLimit` are multiplied by the SIMD-width multiplier; finally
`maxPixels = blMin(maxPixels, pixelLimit, srcPart()->maxPixels())`. -/
def preparePart (inp : PreparePartInput) : Nat :=
  let pixelLimit0 : Nat := 64
  let pixelLimit1 : Nat :=
    if inp.is32Bit = true ∧ inp.isSolid = false ∧ inp.pixelType ≠ PixelType.kA8 then 4
    else pixelLimit0
  let pixelLimit : Nat :=
    if inp.dstComplexFetch = true ∨ inp.srcComplexFetch = true then 4 else pixelLimit1
  let maxPixels0 := preparePartTable inp.pixelType inp.compOp
  let maxPixels1 :=
    if 1 < maxPixels0 then maxPixels0 * inp.simdMultiplier else maxPixels0
  let pixelLimit2 :=
    if 1 < maxPixels0 then pixelLimit * inp.simdMultiplier else pixelLimit
  min (min maxPixels1 pixelLimit2) inp.srcMaxPixels

/-- The claim's formula for `maxLanes`: take the table value, multiply by the
SIMD-width multiplier, and clamp to the minimum of (a) a ceiling of 64 lanes,
lowered to 4 under the register-pressure / complex-fetch conditions, and
(b) the source fetch part's declared maximum. -/
def maxLanesClaimed (inp : PreparePartInput) : Nat :=
  let ceiling : Nat :=
    if (inp.is32Bit = true ∧ inp.isSolid = false ∧ inp.pixelType ≠ PixelType.kA8)
        ∨ inp.dstComplexFetch = true ∨ inp.srcComplexFetch = true then 4
    else 64
  min (min (preparePartTable inp.pixelType inp.compOp * inp.simdMultiplier) ceiling)
    inp.srcMaxPixels

/-- The amended formula: as claimed, except that the 64/4 ceiling is scaled by
the same SIMD-width multiplier as the table value, and neither is scaled when
the table value is 1. -/
def maxLanesAmended (inp : PreparePartInput) : Nat :=
  let ceiling : Nat :=
    if (inp.is32Bit = true ∧ inp.isSolid = false ∧ inp.pixelType ≠ PixelType.kA8)
        ∨ inp.dstComplexFetch = true ∨ inp.srcComplexFetch = true then 4
    else 64
  let t := preparePartTable inp.pixelType inp.compOp
  let scale := if 1 < t then inp.simdMultiplier else 1
  min (min (t * scale) (ceiling * scale)) inp.srcMaxPixels

/-- C3 counterexample: with an RGBA32 src-over pipeline (table value 8), a
solid source, a complex destination fetch, SIMD multiplier 2 and a source
maximum of 64, `preparePart` computes min(16, 4*2, 64) = 8, while the claim's
formula (ceiling not scaled by the SIMD multiplier) yields min(16, 4, 64) = 4. -/
theorem C3_planner_counterexample :
    preparePart
        ⟨PixelType.kRGBA32, BLCompOp.SRC_OVER, true, true, false, false, 2, 64⟩ = 8 ∧
    maxLanesClaimed
        ⟨PixelType.kRGBA32, BLCompOp.SRC_OVER, true, true, false, false, 2, 64⟩ = 4 ∧
    (8 : Nat) ≠ 4 := by
  refine ⟨by decide, by decide, by decide⟩

set_option maxHeartbeats 1000000 in
theorem planner_formula_aux (t mult srcMax : Nat) (A B : Prop)
    [Decidable A] [Decidable B] :
    (let lim1 := if A then (4 : Nat) else 64
     let lim := if B then (4 : Nat) else lim1
     let m1 := if 1 < t then t * mult else t
     let l2 := if 1 < t then lim * mult else lim
     min (min m1 l2) srcMax) =
    (let ceiling := if A ∨ B then (4 : Nat) else 64
     let scale := if 1 < t then mult else 1
     min (min (t * scale) (ceiling * scale)) srcMax) := by
  dsimp only
  split_ifs
  all_goals first
  | (exfalso; tauto)
  | simp [mul_one]

/-- C3 (amended): `preparePart` computes exactly the claimed clamp formula
with the single correction that the 64/4 safety ceiling is multiplied by the
SIMD-width multiplier together with the table value (and no scaling happens
when the table value is 1). -/
theorem C3_planner_formula (inp : PreparePartInput) :
    preparePart inp = maxLanesAmended inp :=
  planner_formula_aux (preparePartTable inp.pixelType inp.compOp)
    inp.simdMultiplier inp.srcMaxPixels
    (inp.is32Bit = true ∧ inp.isSolid = false ∧ inp.pixelType ≠ PixelType.kA8)
    (inp.dstComplexFetch = true ∨ inp.srcComplexFetch = true)

/-! ### Constant-mask session state machine
(`_cMaskLoopInit` / `_cMaskLoopFini`, `cMaskInit*` / `cMaskFini*`)

Register contents are modelled as `Option Nat` (`none` = the register slot is
invalid / reset, as after `reset()`); `BL_ASSERT` failures are `Except.error`. -/

inductive CMaskLoopType where
  | kNone
  | kOpaque
  | kVariant
deriving DecidableEq

/-- `SolidPixel _solidOpt`: the per-operator span-invariant operands. -/
structure SolidPixel where
  sa : Option Nat
  sx : Option Nat
  sy : Option Nat
  px : Option Nat
  ux : Option Nat
  uy : Option Nat
  vm : Option Nat
  vn : Option Nat
deriving DecidableEq

/-- `SolidPixel::reset()`. -/
def SolidPixel.reset : SolidPixel :=
  ⟨none, none, none, none, none, none, none, none⟩

/-- `Pixel _solidPre`: the preprocessed solid pixel whose representations are
materialized lazily by `x_satisfy_solid` during the span. -/
structure PrePixel where
  pc : Option Nat
  uc : Option Nat
  ua : Option Nat
  ui : Option Nat
  sa : Option Nat
deriving DecidableEq

/-- `Pixel::reset()` for `_solidPre`. -/
def PrePixel.reset : PrePixel :=
  ⟨none, none, none, none, none⟩

/-- `CompOpPart::_mask` (scalar mask, vector mask, cached inverted mask). -/
structure MaskCtx where
  sm : Option Nat
  vm : Option Nat
  vn : Option Nat
deriving DecidableEq

/-- `_mask->reset()`. -/
def MaskCtx.reset : MaskCtx :=
  ⟨none, none, none⟩

structure CMaskSessionState where
  solidOpt : SolidPixel
  solidPre : PrePixel
  mask : MaskCtx
  cMaskLoopType : CMaskLoopType
  cMaskLoopHook : Bool
deriving DecidableEq

/-- The state of a freshly constructed `CompOpPart` (constructor calls
`_mask->reset()`, loop state `kNone`, hook null). -/
def CMaskSessionState.initial : CMaskSessionState :=
  ⟨SolidPixel.reset, PrePixel.reset, MaskCtx.reset, CMaskLoopType.kNone, false⟩

/-- `CompOpPart::_cMaskLoopInit(loopType)`. -/
def cMaskLoopInitStep (st : CMaskSessionState) (loopType : CMaskLoopType) :
    Except String CMaskSessionState :=
  if st.cMaskLoopType ≠ CMaskLoopType.kNone then
    Except.error "BL_ASSERT failed: _cMaskLoopType == CMaskLoopType::kNone"
  else if st.cMaskLoopHook then
    Except.error "BL_ASSERT failed: _cMaskLoopHook == nullptr"
  else
    Except.ok { st with cMaskLoopType := loopType, cMaskLoopHook := true }

/-- `CompOpPart::_cMaskLoopFini()`. -/
def cMaskLoopFiniStep (st : CMaskSessionState) : Except String CMaskSessionState :=
  if st.cMaskLoopType = CMaskLoopType.kNone then
    Except.error "BL_ASSERT failed: _cMaskLoopType != CMaskLoopType::kNone"
  else if st.cMaskLoopHook = false then
    Except.error "BL_ASSERT failed: _cMaskLoopHook != nullptr"
  else
    Except.ok { st with cMaskLoopType := CMaskLoopType.kNone, cMaskLoopHook := false }

/-- `cMaskInitA8` / `cMaskInitRGBA32` at the session-state level.  `mask` is
`some m` when a scalar/vector mask was supplied (`hasMask`), `none` for the
opaque init.  `ops` abstracts the per-operator computation of the
span-invariant operands out of the constant source colour and the mask (the
bodies of the `CMaskInit - * - Solid` branches); `vnNonSolid` abstracts the
inverted mask cached by the non-solid RGBA32 SrcCopy branch.  The final step
of both functions is `_cMaskLoopInit(hasMask ? kVariant : kOpaque)`. -/
def cMaskInitState (ops : Option Nat → SolidPixel) (vnNonSolid : Nat → Option Nat)
    (isSolid : Bool) (mask : Option Nat) (st : CMaskSessionState) :
    Except String CMaskSessionState :=
  let st1 :=
    match mask with
    | some m =>
      { st with mask := { sm := some m, vm := some m,
                          vn := if isSolid then st.mask.vn else vnNonSolid m } }
    | none => st
  let st2 := if isSolid then { st1 with solidOpt := ops mask } else st1
  cMaskLoopInitStep st2 (if mask.isSome then CMaskLoopType.kVariant else CMaskLoopType.kOpaque)

/-- `cMaskFiniA8` / `cMaskFiniRGBA32`: for a solid source `_solidOpt.reset()`
and `_solidPre.reset()`, then `_mask->reset()` and `_cMaskLoopFini()`. -/
def cMaskFiniState (isSolid : Bool) (st : CMaskSessionState) :
    Except String CMaskSessionState :=
  let st1 :=
    if isSolid then { st with solidOpt := SolidPixel.reset, solidPre := PrePixel.reset }
    else st
  let st2 := { st1 with mask := MaskCtx.reset }
  cMaskLoopFiniStep st2

/-- C4: the mask-session lifecycle is the strict state machine
`None --Init--> {Opaque | Variant} --Fini--> None`: any `cMaskInit` variant
called while the loop state is not `kNone` hits a fatal assertion (no `ok`
result), `cMaskFini` while it is `kNone` hits a fatal assertion, Init with a
mask enters `kVariant` and without a mask enters `kOpaque`, and a successful
Fini always returns the loop state to `kNone`. -/
theorem C4_mask_session_state_machine
    (st : CMaskSessionState) (ops : Option Nat → SolidPixel)
    (vnNonSolid : Nat → Option Nat) (isSolid : Bool) (mask : Option Nat) :
    (st.cMaskLoopType ≠ CMaskLoopType.kNone →
      (cMaskInitState ops vnNonSolid isSolid mask st).toOption = none) ∧
    (st.cMaskLoopType = CMaskLoopType.kNone →
      (cMaskFiniState isSolid st).toOption = none) ∧
    (∀ st', cMaskInitState ops vnNonSolid isSolid mask st = Except.ok st' →
      st'.cMaskLoopType =
        (if mask.isSome then CMaskLoopType.kVariant else CMaskLoopType.kOpaque)) ∧
    (∀ st', cMaskFiniState isSolid st = Except.ok st' →
      st'.cMaskLoopType = CMaskLoopType.kNone) := by
  refine ⟨?_, ?_, ?_, ?_⟩
  · intro h
    unfold cMaskInitState cMaskLoopInitStep
    cases mask <;> cases isSolid <;> simp [h, Except.toOption]
  · intro h
    unfold cMaskFiniState cMaskLoopFiniStep
    cases isSolid <;> simp [h, Except.toOption]
  · intro st' hok
    unfold cMaskInitState cMaskLoopInitStep at hok
    by_cases h1 : st.cMaskLoopType = CMaskLoopType.kNone
    · by_cases h2 : st.cMaskLoopHook = false
      · cases mask <;> cases isSolid <;>
          simp [h1, h2] at hok <;> simp [← hok]
      · cases mask <;> cases isSolid <;>
          simp [h1, eq_true_of_ne_false h2] at hok
    · cases mask <;> cases isSolid <;> simp [h1] at hok
  · intro st' hok
    unfold cMaskFiniState cMaskLoopFiniStep at hok
    by_cases h1 : st.cMaskLoopType = CMaskLoopType.kNone
    · cases isSolid <;> simp [h1] at hok
    · by_cases h2 : st.cMaskLoopHook = false
      · cases isSolid <;> simp [h1, h2] at hok
      · cases isSolid <;> simp [h1, eq_true_of_ne_false h2] at hok <;> simp [← hok]

/-- C4 witness: initializing a second constant-mask session while one is
active aborts, and finalizing with no active session aborts, at concrete
states. -/
theorem C4_mask_session_state_machine_witness :
    ((cMaskInitState (fun _ => SolidPixel.reset) (fun m => some (255 - m)) true (some 7)
        ⟨SolidPixel.reset, PrePixel.reset, MaskCtx.reset,
          CMaskLoopType.kVariant, true⟩).toOption = none) ∧
    ((cMaskFiniState true CMaskSessionState.initial).toOption = none) :=
  ⟨(C4_mask_session_state_machine
      ⟨SolidPixel.reset, PrePixel.reset, MaskCtx.reset, CMaskLoopType.kVariant, true⟩
      (fun _ => SolidPixel.reset) (fun m => some (255 - m)) true (some 7)).1 (by decide),
   (C4_mask_session_state_machine CMaskSessionState.initial
      (fun _ => SolidPixel.reset) (fun m => some (255 - m)) true (some 7)).2.1 (by decide)⟩

/-- C5: `cMaskFini` of any mid-session state (solid source) resets the solid
operands, the solid precomputed pixel, the mask context including the cached
inverted-mask slot, and the constant-mask loop state, yielding exactly the
freshly-constructed state; consequently `Init(mask A); Fini; Init(mask B)`
computes the same session state for mask B as a fresh `Init(mask B)` — no
mask-A state leaks. -/
theorem C5_session_reset_law
    (stMid : CMaskSessionState) (opsB : Option Nat → SolidPixel)
    (vnB : Nat → Option Nat) (maskB : Option Nat)
    (h1 : stMid.cMaskLoopType ≠ CMaskLoopType.kNone)
    (h2 : stMid.cMaskLoopHook = true) :
    cMaskFiniState true stMid = Except.ok CMaskSessionState.initial ∧
    (∀ stF, cMaskFiniState true stMid = Except.ok stF →
      cMaskInitState opsB vnB true maskB stF =
        cMaskInitState opsB vnB true maskB CMaskSessionState.initial) := by
  have hfini : cMaskFiniState true stMid = Except.ok CMaskSessionState.initial := by
    unfold cMaskFiniState cMaskLoopFiniStep
    simp [h1, h2, CMaskSessionState.initial]
  refine ⟨hfini, ?_⟩
  intro stF hF
  rw [hfini] at hF
  have : stF = CMaskSessionState.initial := by
    injection hF with h
    exact h.symm
  rw [this]

/-- C5 witness: the reset law applied to a concrete mid-session state carrying
mask-A operands. -/
theorem C5_session_reset_law_witness :
    cMaskFiniState true
        ⟨⟨some 9, some 8, some 7, none, none, none, none, none⟩,
         ⟨some 3, none, none, none, some 2⟩,
         ⟨some 11, some 11, some 244⟩, CMaskLoopType.kVariant, true⟩ =
      Except.ok CMaskSessionState.initial :=
  (C5_session_reset_law
      ⟨⟨some 9, some 8, some 7, none, none, none, none, none⟩,
       ⟨some 3, none, none, none, some 2⟩,
       ⟨some 11, some 11, some 244⟩, CMaskLoopType.kVariant, true⟩
      (fun _ => SolidPixel.reset) (fun m => some (255 - m)) (some 13)
      (by decide) (by decide)).1

/-! ### Partial-pixel mode
(`enterPartialMode` / `nextPartialPixel` / `exitPartialMode` / `srcFetch`)

The 128-bit `_partialPixel` register is modelled as the list of its pixel
lanes, lane 0 first.  `v_srlb_u128(pix, pix, 2)` on the 16-bit A8 lanes and
`v_srlb_u128(pix, pix, 4)` on the 32-bit RGBA32 lanes both shift the register
down by exactly one lane: lane k takes the value of lane k+1 and the top lane
becomes zero.  Emitted instructions are tracked as a list of mnemonics. -/

structure PartialCtx where
  isInPartialMode : Bool
  partPix : List Nat
deriving DecidableEq

/-- `CompOpPart::enterPartialMode`: returns immediately for solid-pre sources;
asserts `!isInPartialMode()` (and `pixelGranularity() == 4`, an invariant of
the granular call sites); otherwise buffers a 4-lane source fetch into
`_partialPixel` and raises the flag. -/
def enterPartialModeF (usingSolidPre : Bool) (src4 : List Nat) (ctx : PartialCtx) :
    Except String PartialCtx :=
  if usingSolidPre then Except.ok ctx
  else if ctx.isInPartialMode then Except.error "BL_ASSERT failed: !isInPartialMode()"
  else Except.ok ⟨true, src4⟩

/-- `CompOpPart::exitPartialMode`: returns immediately for solid-pre sources;
asserts `isInPartialMode()`; clears the flag and resets `_partialPixel`. -/
def exitPartialModeF (usingSolidPre : Bool) (ctx : PartialCtx) :
    Except String PartialCtx :=
  if usingSolidPre then Except.ok ctx
  else if ctx.isInPartialMode = false then
    Except.error "BL_ASSERT failed: isInPartialMode()"
  else Except.ok ⟨false, []⟩

/-- `CompOpPart::nextPartialPixel`: when not in partial mode this is a silent
no-op emitting nothing; in partial mode it emits one `v_srlb_u128` shifting
the buffered pixel down by one lane. -/
def nextPartialPixelF (ctx : PartialCtx) : PartialCtx × List String :=
  if ctx.isInPartialMode = false then (ctx, [])
  else (⟨true, ctx.partPix.tail ++ [0]⟩, ["v_srlb_u128"])

/-- `CompOpPart::srcFetch` with `n == 1` in partial mode: the produced pixel
is lane 0 of `_partialPixel` (`v_extract_u16(.., 0)` for A8, the low 32-bit
lane of `pc[0]` for RGBA32). -/
def srcFetchPartial1 (ctx : PartialCtx) : Nat :=
  ctx.partPix.headD 0

/-- C6: draining a 4-lane fetch one lane at a time through
`enterPartialMode` and three `nextPartialPixel` shifts yields exactly the four
fetched pixel values, in fetch order. -/
theorem C6_partial_fetch_order
    (p0 p1 p2 p3 : Nat) (ctx0 : PartialCtx)
    (hmode : ctx0.isInPartialMode = false) :
    ∀ ctx1, enterPartialModeF false [p0, p1, p2, p3] ctx0 = Except.ok ctx1 →
      [srcFetchPartial1 ctx1,
       srcFetchPartial1 (nextPartialPixelF ctx1).1,
       srcFetchPartial1 (nextPartialPixelF (nextPartialPixelF ctx1).1).1,
       srcFetchPartial1
         (nextPartialPixelF (nextPartialPixelF (nextPartialPixelF ctx1).1).1).1] =
      [p0, p1, p2, p3] := by
  intro ctx1 henter
  unfold enterPartialModeF at henter
  rw [if_neg (by simp)] at henter
  rw [hmode] at henter
  simp only [Bool.false_eq_true, if_false, Except.ok.injEq] at henter
  rw [← henter]
  simp [srcFetchPartial1, nextPartialPixelF]

/-- C6 witness: the partial-pixel order law at a concrete 4-lane fetch. -/
theorem C6_partial_fetch_order_witness :
    [srcFetchPartial1 ⟨true, [10, 20, 30, 40]⟩,
     srcFetchPartial1 (nextPartialPixelF ⟨true, [10, 20, 30, 40]⟩).1,
     srcFetchPartial1 (nextPartialPixelF (nextPartialPixelF ⟨true, [10, 20, 30, 40]⟩).1).1,
     srcFetchPartial1
       (nextPartialPixelF
         (nextPartialPixelF (nextPartialPixelF ⟨true, [10, 20, 30, 40]⟩).1).1).1] =
    [10, 20, 30, 40] :=
  C6_partial_fetch_order 10 20 30 40 ⟨false, []⟩ (by decide) ⟨true, [10, 20, 30, 40]⟩ rfl

/-- C10: calling `nextPartialPixel` while not in partial mode is a silent
no-op — the state is unchanged and no instruction is emitted — whereas
`exitPartialMode` (for a source not folded into the solid-pre fast path)
asserts that partial mode is active. -/
theorem C10_nextPartialPixel_noop (ctx : PartialCtx)
    (hmode : ctx.isInPartialMode = false) :
    nextPartialPixelF ctx = (ctx, []) ∧
    (exitPartialModeF false ctx).toOption = none := by
  constructor
  · unfold nextPartialPixelF
    rw [if_pos hmode]
  · unfold exitPartialModeF
    rw [if_neg (by simp), if_pos hmode]
    rfl

/-- C10 witness: the out-of-partial-mode no-op at a concrete state. -/
theorem C10_nextPartialPixel_noop_witness :
    nextPartialPixelF ⟨false, [5, 6]⟩ = (⟨false, [5, 6]⟩, []) ∧
    (exitPartialModeF false ⟨false, [5, 6]⟩).toOption = none :=
  C10_nextPartialPixel_noop ⟨false, [5, 6]⟩ (by decide)

/-! ### Fixed-point pixel arithmetic

The `PipeCompiler` arithmetic helpers live outside this repository slice, so
they are modelled from the spec (section on composition algebra kernels):
8-bit channels are widened to 16 bits and `round(a*b/255)` is computed exactly
either by a multiply-add-shift `/255` sequence or by a `*257 >> 16` rounding
multiply. -/

/-- Modelled from the spec: `PipeCompiler::i_div_255_u32` / `v_div255_u16`
(source file not under src/) — the exact multiply-add-shift rounding division
`round(x / 255) = (x + 128 + (x + 128) / 256) / 256`. -/
def div255 (x : Nat) : Nat := (x + 128 + (x + 128) / 256) / 256

/-- Modelled from the spec: `PipeCompiler::i_mul_257_hu16` / `v_mul257_hi_u16`
(source file not under src/) — the `*257 >> 16`-style rounding multiply used
when one operand is a `[0,255]`-affine form with the `+0x80` bias already
added. -/
def mul257hi (x : Nat) : Nat := x * 257 / 65536

/-- Modelled from the spec: `PipeCompiler::i_inv_u8` / `v_inv255_u16`
(source file not under src/) — the 8-bit complement `255 - x`. -/
def inv255 (x : Nat) : Nat := 255 - x

/-! ### C2: the A8 src-over constant-mask kernel
(`cMaskInitA8` SrcOver branches and `cMaskProcA8Gp` SrcOver) -/

/-- `cMaskInitA8`, SrcOver, masked branch:

    pc->i_mul(o.sy, sm, s.sa); pc->i_div_255_u32(o.sy, o.sy);
    pc->i_shl(o.sx, o.sy, imm(8)); pc->i_sub(o.sx, o.sx, o.sy);
    pc->i_add(o.sx, o.sx, imm(0x80)); pc->i_inv_u8(o.sy, o.sy)

returning the pair (sx, sy). -/
def cMaskInitA8SrcOverMasked (sa m : Nat) : Nat × Nat :=
  let sy0 := div255 (m * sa)
  (sy0 * 256 - sy0 + 128, inv255 sy0)

/-- `cMaskInitA8`, SrcOver, unmasked branch:

    o.sx = cc->newUInt32("p.sx"); o.sy = sm;
    pc->i_mov(o.sx, s.sa); cc->shl(o.sx, 8); pc->i_sub(o.sx, o.sx, s.sa);
    pc->i_inv_u8(o.sy, o.sy)

Note that `sm` is an invalid register here (`hasMask == false` implies
`!sm.isValid()`), so `o.sy` is the complement of the unspecified content `g`
of that register, and the `+ 0x80` rounding term promised by the comment
`Xa = Sa * 1 + 0.5 <Rounding>` is never added to `o.sx`. -/
def cMaskInitA8SrcOverOpaque (sa g : Nat) : Nat × Nat :=
  (sa * 256 - sa, inv255 g)

/-- `cMaskProcA8Gp`, SrcOver (`Da' = Xa + Da.Ya`):

    pc->i_mul(da, da, o.sy); pc->i_add(da, da, o.sx); pc->i_mul_257_hu16(da, da)
-/
def cMaskProcA8GpSrcOver (sx sy da : Nat) : Nat :=
  mul257hi (da * sy + sx)

/-- C2: code-bug evidence for the mask-identity law.  For the A8 src-over
solid kernel with source alpha Sa = 1 and destination alpha Da = 0, the masked
kernel at the fully-opaque constant mask m = 255 produces 1 (the correct
src-over value), while the unmasked kernel produces 0 for every possible
content g of the uninitialized register read into `o.sy` — so the two are not
bit-identical, contradicting both the claim and the code's own
`Xa = Sa * 1 + 0.5 <Rounding>` / `Ya = 1 - Sa` comments. -/
theorem C2_a8_srcover_mask255_mismatch :
    cMaskProcA8GpSrcOver (cMaskInitA8SrcOverMasked 1 255).1
        (cMaskInitA8SrcOverMasked 1 255).2 0 = 1 ∧
    (∀ g : Nat,
      cMaskProcA8GpSrcOver (cMaskInitA8SrcOverOpaque 1 g).1
        (cMaskInitA8SrcOverOpaque 1 g).2 0 = 0) ∧
    (1 : Nat) ≠ 0 := by
  refine ⟨by decide, ?_, by decide⟩
  intro g
  simp [cMaskProcA8GpSrcOver, cMaskInitA8SrcOverOpaque, mul257hi]

/-! ### RGBA32 kernels at the channel level (C8)

A 16-bit-unpacked RGBA32 pixel is modelled as its four channels; the vector
operations act channel-wise.  `v_expand_alpha_16` broadcasts the alpha channel
to all four lanes of a pixel. -/

structure Rgba where
  r : Nat
  g : Nat
  b : Nat
  a : Nat
deriving DecidableEq

def cwise (f : Nat → Nat) (p : Rgba) : Rgba :=
  ⟨f p.r, f p.g, f p.b, f p.a⟩

def cwise2 (f : Nat → Nat → Nat) (p q : Rgba) : Rgba :=
  ⟨f p.r q.r, f p.g q.g, f p.b q.b, f p.a q.a⟩

def vMul (p q : Rgba) : Rgba := cwise2 (· * ·) p q

def vAdd (p q : Rgba) : Rgba := cwise2 (· + ·) p q

def vDiv255 (p : Rgba) : Rgba := cwise div255 p

def vInv255 (p : Rgba) : Rgba := cwise inv255 p

def vMul257hi (p : Rgba) : Rgba := cwise mul257hi p

/-- `v_adds_u8`: saturating byte add (on packed pixels). -/
def vAddsU8 (p q : Rgba) : Rgba := cwise2 (fun x y => min (x + y) 255) p q

/-- `v_expand_alpha_16`. -/
def vExpandAlpha (p : Rgba) : Rgba := ⟨p.a, p.a, p.a, p.a⟩

/-- A constant mask broadcast to all channels (`x_fetch_mask_a8_advance`
expands each A8 coverage byte to all 16-bit lanes of its pixel). -/
def bcast (m : Nat) : Rgba := ⟨m, m, m, m⟩

/-- `vMaskProcRGBA32Vec`, SrcOver, masked
(`Dca' = Sca.m + Dca.(1 - Sa.m)`):

    v_mul_u16(sv, sv, vm); v_div255_u16(sv);
    v_expand_alpha_16(xv, sv); v_inv255_u16(xv, xv);
    v_mul_u16(dv, dv, xv); v_div255_u16(dv); v_add_i16(dv, dv, sv)
-/
def vMaskProcRGBA32SrcOverM (s d m : Rgba) : Rgba :=
  let sv := vDiv255 (vMul s m)
  let xv := vInv255 (vExpandAlpha sv)
  let dv := vDiv255 (vMul d xv)
  vAdd dv sv

/-- `vMaskProcRGBA32Vec`, SrcIn, masked
(`Dca' = Sca.m.Da + Dca.(1 - m)`):

    v_expand_alpha_16(xv, dv); v_mul_u16(xv, xv, sv); v_div255_u16(xv);
    v_mul_u16(xv, xv, vm); vn := inv255(vm) (vMaskProcRGBA32InvertMask);
    v_mul_u16(dv, dv, vn); v_add_i16(dv, dv, xv); v_div255_u16(dv)
-/
def vMaskProcRGBA32SrcInM (s d m : Rgba) : Rgba :=
  let xv := vMul (vDiv255 (vMul (vExpandAlpha d) s)) m
  let vn := vInv255 m
  let dv := vMul d vn
  vDiv255 (vAdd dv xv)

/-- `vMaskProcRGBA32Vec`, Xor, masked
(`Dca' = Dca.(1 - Sa.m) + Sca.m.(1 - Da)`):

    v_mul_u16(sv, sv, vm); v_div255_u16(sv);
    v_expand_alpha_16(xv, sv); v_expand_alpha_16(yv, dv);
    v_inv255_u16(xv, xv); v_inv255_u16(yv, yv);
    v_mul_u16(dv, dv, xv); v_mul_u16(sv, sv, yv);
    v_add_i16(dv, dv, sv); v_div255_u16(dv)
-/
def vMaskProcRGBA32XorM (s d m : Rgba) : Rgba :=
  let sv := vDiv255 (vMul s m)
  let xv := vInv255 (vExpandAlpha sv)
  let yv := vInv255 (vExpandAlpha d)
  vDiv255 (vAdd (vMul d xv) (vMul sv yv))

/-- `vMaskProcRGBA32Vec`, Plus, masked (`Dca' = Clamp(Dca + Sca.m)`):

    v_mul_u16(sv, sv, vm); v_div255_u16(sv); pack; v_adds_u8(dh, dh, sh)
-/
def vMaskProcRGBA32PlusM (s d m : Rgba) : Rgba :=
  vAddsU8 d (vDiv255 (vMul s m))

/-- `cMaskInitRGBA32`, SrcOver, masked: operands

    Xca = Sca * m + 0.5; Yca = 1 - (Sa * m):
    v_mul_u16(uy, uc, vm); v_div255_u16(uy);
    v_sll_i16(ux, uy, 8); v_sub_i16(ux, ux, uy); v_add_i16(ux, ux, 0x0080);
    v_expand_alpha_16(uy, uy); v_inv255_u16(uy, uy)
-/
def cMaskInitRGBA32SrcOverM (s : Rgba) (m : Nat) : Rgba × Rgba :=
  let uy0 := vDiv255 (vMul s (bcast m))
  let ux := vAdd (cwise2 (· - ·) (cwise (· * 256) uy0) uy0) (bcast 128)
  (ux, vInv255 (vExpandAlpha uy0))

/-- `cMaskProcRGBA32Vec`, SrcOver (`Dca' = Xca + Dca.Yca`):

    v_mul_u16(dv, dv, uy); v_add_i16(dv, dv, ux); v_mul257_hi_u16(dv, dv)
-/
def cMaskProcRGBA32SrcOver (ux uy d : Rgba) : Rgba :=
  vMul257hi (vAdd (vMul d uy) ux)

/-- `cMaskInitRGBA32`, SrcIn/SrcOut, masked: `Xca = Sca * m`, `Im = 1 - m`:

    v_mul_u16(ux, uc, vm); v_div255_u16(ux); v_inv255_u16(vn, vm)
-/
def cMaskInitRGBA32SrcInM (s : Rgba) (m : Nat) : Rgba × Rgba :=
  (vDiv255 (vMul s (bcast m)), vInv255 (bcast m))

/-- `cMaskProcRGBA32Vec`, SrcIn, masked (`Dca' = Xca.Da + Dca.(1 - m)`):

    v_mul_u16(dv, dv, vn); v_mul_u16(da, da, ux);
    v_add_i16(dv, dv, da); v_div255_u16(dv)
-/
def cMaskProcRGBA32SrcInM (ux vn d : Rgba) : Rgba :=
  vDiv255 (vAdd (vMul d vn) (vMul (vExpandAlpha d) ux))

/-- `cMaskInitRGBA32`, SrcAtop/Xor/Darken/Lighten, masked:
`Xca = Sca * m`, `Yca = 1 - (Sa * m)`:

    v_mul_u16(ux, uc, vm); v_div255_u16(ux);
    v_expand_alpha_16(uy, ux); v_swizzle_u32(uy, uy, (0,0,0,0));
    v_inv255_u16(uy, uy)
-/
def cMaskInitRGBA32XorM (s : Rgba) (m : Nat) : Rgba × Rgba :=
  let ux := vDiv255 (vMul s (bcast m))
  (ux, vInv255 (vExpandAlpha ux))

/-- `cMaskProcRGBA32Vec`, DstAtop/Xor/Multiply with destination alpha
(`Dca' = Xca.(1 - Da) + Dca.Yca`):

    v_expand_alpha_16(xv, dv); v_mul_u16(dv, dv, uy);
    v_inv255_u16(xv, xv); v_mul_u16(xv, xv, ux);
    v_add_i16(dv, dv, xv); v_div255_u16(dv)
-/
def cMaskProcRGBA32Xor (ux uy d : Rgba) : Rgba :=
  vDiv255 (vAdd (vMul d uy) (vMul (vInv255 (vExpandAlpha d)) ux))

/-- `cMaskInitRGBA32`, Plus, masked: `Xca = Sca * m` packed:

    v_mul_u16(px, uc, vm); v_div255_u16(px); v_packs_i16_u8(px, px, px)
-/
def cMaskInitRGBA32PlusM (s : Rgba) (m : Nat) : Rgba :=
  vDiv255 (vMul s (bcast m))

/-- `cMaskProcRGBA32Vec`, Plus (`Dca' = Clamp(Dca + Xca)`): `v_adds_u8`. -/
def cMaskProcRGBA32Plus (px d : Rgba) : Rgba :=
  vAddsU8 d px

/-- C8: for the zero-coverage no-op operators src-over, src-in, xor and plus
(RGBA32), a mask of 0 leaves the destination pixel unchanged, both in the
variable-mask kernels (`vMaskProcRGBA32Vec`) and in the constant-mask path
(`cMaskInitRGBA32` operands fed to `cMaskProcRGBA32Vec`). -/
theorem C8_zero_mask_noop (s d : Rgba)
    (hr : d.r ≤ 255) (hg : d.g ≤ 255) (hb : d.b ≤ 255) (ha : d.a ≤ 255) :
    vMaskProcRGBA32SrcOverM s d (bcast 0) = d ∧
    vMaskProcRGBA32SrcInM s d (bcast 0) = d ∧
    vMaskProcRGBA32XorM s d (bcast 0) = d ∧
    vMaskProcRGBA32PlusM s d (bcast 0) = d ∧
    cMaskProcRGBA32SrcOver (cMaskInitRGBA32SrcOverM s 0).1
      (cMaskInitRGBA32SrcOverM s 0).2 d = d ∧
    cMaskProcRGBA32SrcInM (cMaskInitRGBA32SrcInM s 0).1
      (cMaskInitRGBA32SrcInM s 0).2 d = d ∧
    cMaskProcRGBA32Xor (cMaskInitRGBA32XorM s 0).1
      (cMaskInitRGBA32XorM s 0).2 d = d ∧
    cMaskProcRGBA32Plus (cMaskInitRGBA32PlusM s 0) d = d := by
  obtain ⟨sr, sg, sb, sa⟩ := s
  obtain ⟨dr, dg, db, da⟩ := d
  simp only at hr hg hb ha
  refine ⟨?_, ?_, ?_, ?_, ?_, ?_, ?_, ?_⟩ <;>
    · simp only [vMaskProcRGBA32SrcOverM, vMaskProcRGBA32SrcInM, vMaskProcRGBA32XorM,
        vMaskProcRGBA32PlusM, cMaskInitRGBA32SrcOverM, cMaskProcRGBA32SrcOver,
        cMaskInitRGBA32SrcInM, cMaskProcRGBA32SrcInM, cMaskInitRGBA32XorM,
        cMaskProcRGBA32Xor, cMaskInitRGBA32PlusM, cMaskProcRGBA32Plus,
        vMul, vAdd, vDiv255, vInv255, vMul257hi, vAddsU8, vExpandAlpha, bcast,
        cwise, cwise2, div255, inv255, mul257hi, Nat.mul_zero, Rgba.mk.injEq]
      norm_num
      refine ⟨?_, ?_, ?_, ?_⟩ <;> omega

/-- C8 witness: the zero-mask law at a concrete source and destination. -/
theorem C8_zero_mask_noop_witness :
    vMaskProcRGBA32SrcOverM ⟨200, 0, 0, 200⟩ ⟨0, 0, 200, 100⟩ (bcast 0) = ⟨0, 0, 200, 100⟩ ∧
    vMaskProcRGBA32SrcInM ⟨200, 0, 0, 200⟩ ⟨0, 0, 200, 100⟩ (bcast 0) = ⟨0, 0, 200, 100⟩ ∧
    vMaskProcRGBA32XorM ⟨200, 0, 0, 200⟩ ⟨0, 0, 200, 100⟩ (bcast 0) = ⟨0, 0, 200, 100⟩ ∧
    vMaskProcRGBA32PlusM ⟨200, 0, 0, 200⟩ ⟨0, 0, 200, 100⟩ (bcast 0) = ⟨0, 0, 200, 100⟩ ∧
    cMaskProcRGBA32SrcOver (cMaskInitRGBA32SrcOverM ⟨200, 0, 0, 200⟩ 0).1
      (cMaskInitRGBA32SrcOverM ⟨200, 0, 0, 200⟩ 0).2 ⟨0, 0, 200, 100⟩ = ⟨0, 0, 200, 100⟩ ∧
    cMaskProcRGBA32SrcInM (cMaskInitRGBA32SrcInM ⟨200, 0, 0, 200⟩ 0).1
      (cMaskInitRGBA32SrcInM ⟨200, 0, 0, 200⟩ 0).2 ⟨0, 0, 200, 100⟩ = ⟨0, 0, 200, 100⟩ ∧
    cMaskProcRGBA32Xor (cMaskInitRGBA32XorM ⟨200, 0, 0, 200⟩ 0).1
      (cMaskInitRGBA32XorM ⟨200, 0, 0, 200⟩ 0).2 ⟨0, 0, 200, 100⟩ = ⟨0, 0, 200, 100⟩ ∧
    cMaskProcRGBA32Plus (cMaskInitRGBA32PlusM ⟨200, 0, 0, 200⟩ 0) ⟨0, 0, 200, 100⟩ =
      ⟨0, 0, 200, 100⟩ :=
  C8_zero_mask_noop ⟨200, 0, 0, 200⟩ ⟨0, 0, 200, 100⟩
    (by decide) (by decide) (by decide) (by decide)

/-! ### Memcpy/memset fast path (C7, C9) -/

inductive FetchType where
  | kSolid
  | kPatternAlignedBlit
  | kOther
deriving DecidableEq

/-- The source `FetchPart` capabilities `shouldJustCopyOpaqueFill` inspects:
`isSolid()`, `isFetchType(FetchType::kPatternAlignedBlit)` and `format()`. -/
structure SrcPartInfo where
  isSolid : Bool
  fetchType : FetchType
  format : Nat
deriving DecidableEq

/-- `CompOpPart::shouldJustCopyOpaqueFill`:

    if (!isSrcCopy()) return false;
    if (srcPart()->isSolid()) return true;
    if (srcPart()->isFetchType(kPatternAlignedBlit) &&
        srcPart()->format() == dstPart()->format()) return true;
    return false;
-/
def shouldJustCopyOpaqueFill (op : BLCompOp) (src : SrcPartInfo) (dstFormat : Nat) : Bool :=
  if op ≠ BLCompOp.SRC_COPY then false
  else if src.isSolid then true
  else if src.fetchType = FetchType.kPatternAlignedBlit ∧ src.format = dstFormat then true
  else false

/-- Modelled from the spec: `PipeCompiler::x_inline_pixel_fill_loop` (source
file not under src/) — fills the L destination pixels of the span with the
precomputed packed solid value, honouring the span length exactly. -/
def x_inline_pixel_fill_loop (px L : Nat) : List Nat :=
  List.replicate L px

/-- Modelled from the spec: `PipeCompiler::x_inline_pixel_copy_loop` (source
file not under src/) — raw-copies the L source pixels of the span to the
destination. -/
def x_inline_pixel_copy_loop (srcPixels : Nat → Nat) (L : Nat) : List Nat :=
  (List.range L).map srcPixels

/-- `CompOpPart::cMaskMemcpyOrMemsetLoop`: solid source → fill with
`_solidOpt.px`; `kPatternAlignedBlit` source → raw copy; anything else is
`BL_NOT_REACHED()`. -/
def cMaskMemcpyOrMemsetLoopBuf (src : SrcPartInfo) (px : Nat) (srcPixels : Nat → Nat)
    (L : Nat) : Option (List Nat) :=
  if src.isSolid then some (x_inline_pixel_fill_loop px L)
  else if src.fetchType = FetchType.kPatternAlignedBlit then
    some (x_inline_pixel_copy_loop srcPixels L)
  else none

/-- The generic per-pixel kernel for SRC_COPY under an opaque constant-mask
session, applied pointwise over the span: for a solid source every produced
pixel is the precomputed packed solid `_solidOpt.px`
(`cMaskProcRGBA32Vec` / `cMaskProcA8*`, SrcCopy, `!hasMask`: `out = o.px`,
immutable); for a non-solid source each produced pixel is the fetched source
pixel (`vMaskProc*`, SrcCopy, `!hasMask`: `srcFetch(out, n)` directly). -/
def genericSrcCopyOpaqueBuf (src : SrcPartInfo) (px : Nat) (srcPixels : Nat → Nat)
    (L : Nat) : List Nat :=
  if src.isSolid then (List.range L).map (fun _ => px)
  else (List.range L).map srcPixels

/-- C7: the memcpy/memset fast path is eligible exactly when the operator is
the unconditional source copy and the source is either a constant colour or a
directly addressable same-format aligned pattern blit; under these conditions
the fast path writes, for every span length L (in particular
0, 1, 3, 4, 7, 8, 15, 16, 31, 32, 33), a destination buffer identical to the
generic per-pixel kernel. -/
theorem C7_fastpath_equivalence (op : BLCompOp) (src : SrcPartInfo)
    (dstFormat px : Nat) (srcPixels : Nat → Nat) :
    (shouldJustCopyOpaqueFill op src dstFormat = true ↔
      (op = BLCompOp.SRC_COPY ∧
        (src.isSolid = true ∨
          (src.fetchType = FetchType.kPatternAlignedBlit ∧ src.format = dstFormat)))) ∧
    (shouldJustCopyOpaqueFill op src dstFormat = true →
      ∀ L, cMaskMemcpyOrMemsetLoopBuf src px srcPixels L =
        some (genericSrcCopyOpaqueBuf src px srcPixels L)) := by
  constructor
  · unfold shouldJustCopyOpaqueFill
    by_cases hop : op = BLCompOp.SRC_COPY
    · by_cases hs : src.isSolid
      · simp [hop, hs]
      · by_cases hp : src.fetchType = FetchType.kPatternAlignedBlit ∧ src.format = dstFormat
        · simp [hop, hs, hp]
        · simp [hop, hs, hp]
    · simp [hop]
  · intro helig L
    unfold shouldJustCopyOpaqueFill at helig
    unfold cMaskMemcpyOrMemsetLoopBuf genericSrcCopyOpaqueBuf
    unfold x_inline_pixel_fill_loop x_inline_pixel_copy_loop
    by_cases hs : src.isSolid
    · simp [hs, List.map_const']
    · by_cases hp : src.fetchType = FetchType.kPatternAlignedBlit ∧ src.format = dstFormat
      · simp [hs, hp.1]
      · by_cases hop : op = BLCompOp.SRC_COPY
        · simp [hop, hs, hp] at helig
        · simp [hop] at helig

/-- C7 witness: the fast-path equivalence at a concrete eligible
configuration — SRC_COPY with a same-format aligned pattern blit — for a span
of 33 pixels. -/
theorem C7_fastpath_equivalence_witness :
    cMaskMemcpyOrMemsetLoopBuf ⟨false, FetchType.kPatternAlignedBlit, 1⟩ 77
        (fun k => k + 10) 33 =
      some (genericSrcCopyOpaqueBuf ⟨false, FetchType.kPatternAlignedBlit, 1⟩ 77
        (fun k => k + 10) 33) :=
  (C7_fastpath_equivalence BLCompOp.SRC_COPY ⟨false, FetchType.kPatternAlignedBlit, 1⟩
      1 77 (fun k => k + 10)).2 (by decide) 33

/-- `CompOpPart::cMaskGenericLoop` / `cMaskGranularLoop` dispatch:

    if (isLoopOpaque() && shouldJustCopyOpaqueFill()) { cMaskMemcpyOrMemsetLoop(i); return; }
    cMask{Generic,Granular}LoopVec(i);
-/
inductive CMaskLoopPath where
  | memcpyOrMemset
  | genericVec
deriving DecidableEq

/-- The dispatch decision common to `cMaskGenericLoop` and
`cMaskGranularLoop` (`isLoopOpaque()` is `cMaskLoopType() == kOpaque`). -/
def cMaskLoopDispatch (loopType : CMaskLoopType) (eligible : Bool) : CMaskLoopPath :=
  if loopType = CMaskLoopType.kOpaque ∧ eligible = true then CMaskLoopPath.memcpyOrMemset
  else CMaskLoopPath.genericVec

/-- C9: the memcpy/memset fast path is taken only when the constant-mask loop
is fully opaque: under a non-opaque constant mask (loop state `kVariant`) even
a fast-path-eligible operator/source combination is processed by the generic
vector loop, and the fast path is reached only from the `kOpaque` state with
eligibility true. -/
theorem C9_fastpath_requires_opaque_loop :
    (∀ eligible : Bool,
      cMaskLoopDispatch CMaskLoopType.kVariant eligible = CMaskLoopPath.genericVec) ∧
    (∀ (lt : CMaskLoopType) (eligible : Bool),
      cMaskLoopDispatch lt eligible = CMaskLoopPath.memcpyOrMemset →
        lt = CMaskLoopType.kOpaque ∧ eligible = true) ∧
    cMaskLoopDispatch CMaskLoopType.kOpaque true = CMaskLoopPath.memcpyOrMemset := by
  refine ⟨?_, ?_, by decide⟩
  · intro eligible
    unfold cMaskLoopDispatch
    simp
  · intro lt eligible h
    unfold cMaskLoopDispatch at h
    by_cases hc : lt = CMaskLoopType.kOpaque ∧ eligible = true
    · exact hc
    · simp [hc] at h

/-- C9 witness: an eligible configuration under a variant (non-opaque)
constant mask still takes the generic vector loop. -/
theorem C9_fastpath_requires_opaque_loop_witness :
    cMaskLoopDispatch CMaskLoopType.kVariant true = CMaskLoopPath.genericVec :=
  (C9_fastpath_requires_opaque_loop).1 true
